import Mathlib

/-
Verification of the leaflink profile contract (src/src/lib.rs).

The contract stores one profile per deployed instance: an owner account,
an optional avatar URL, an optional last-update timestamp, and eight
collections backed by `near_sdk::collections::UnorderedSet`.  Mutators
gated on the owner compare `owner_id` with the ambient predecessor
account; following the design note of the spec, the caller identity is
threaded as an explicit parameter here.  A `require!` failure aborts the
call with no state written, which we model by returning the error
together with the unchanged profile value.
-/

namespace Leaflink

/-- Account identifiers are opaque strings compared by equality. -/
abbrev AccountId := String

/-- Timestamps are u64 nanosecond instants; no arithmetic is performed on
them anywhere in the contract, so `Nat` is a faithful carrier. -/
abbrev Timestamp := Nat

/-- Education record, as in src/src/lib.rs lines 11-17. -/
structure Education where
  school : String
  college : Option String
  major : Option String
  started_at : Option Timestamp
  ended_at : Option Timestamp
  deriving DecidableEq, Repr

/-- Job record, as in src/src/lib.rs lines 21-27. -/
structure Job where
  company : String
  position : Option String
  desc : Option String
  started_at : Option Timestamp
  ended_at : Option Timestamp
  deriving DecidableEq, Repr

/-- Comment record, as in src/src/lib.rs lines 31-35. -/
structure Comment where
  commentator : AccountId
  detail : String
  update_at : Option Timestamp
  deriving DecidableEq, Repr

/-- NFT reference, as in src/src/lib.rs lines 39-42. -/
structure NFTInfo where
  contract_id : AccountId
  token_id : String
  deriving DecidableEq, Repr

/-- Model of `near_sdk::collections::UnorderedSet`: a storage-backed set
keyed by full value equality.  `storageKey` carries the byte key passed to
`UnorderedSet::new`; the element list records insertion order, with no
duplicates ever stored (inserting a present value is a no-op). -/
structure UnorderedSet (α : Type) where
  storageKey : String
  elements : List α
  deriving DecidableEq, Repr

/-- Constructor of an empty set over a storage key. -/
def UnorderedSet.new (α : Type) (k : String) : UnorderedSet α :=
  { storageKey := k, elements := [] }

/-- Insert a value: a no-op when a value-equal element is present,
otherwise appended. -/
def UnorderedSet.insert {α : Type} [DecidableEq α] (s : UnorderedSet α) (a : α) :
    UnorderedSet α :=
  if a ∈ s.elements then s else { s with elements := s.elements ++ [a] }

/-- Materialize the set as an ordered sequence (`UnorderedSet::to_vec`). -/
def UnorderedSet.to_vec {α : Type} (s : UnorderedSet α) : List α :=
  s.elements

/-- The contract state, src/src/lib.rs lines 46-58. -/
structure Profile where
  owner_id : AccountId
  avatar : Option String
  nfts : UnorderedSet NFTInfo
  tags : UnorderedSet String
  educations : UnorderedSet Education
  jobs : UnorderedSet Job
  poaps : UnorderedSet NFTInfo
  comments : UnorderedSet Comment
  following : UnorderedSet AccountId
  follow_by : UnorderedSet AccountId
  last_update_at : Option Timestamp
  deriving DecidableEq, Repr

/-- `Profile::new`, src/src/lib.rs lines 63-77: owner as given, all
collections empty with their storage keys, avatar and timestamp absent. -/
def Profile.new (owner_id : AccountId) : Profile :=
  { owner_id := owner_id
    avatar := none
    nfts := UnorderedSet.new NFTInfo "a"
    tags := UnorderedSet.new String "b"
    educations := UnorderedSet.new Education "c"
    jobs := UnorderedSet.new Job "d"
    poaps := UnorderedSet.new NFTInfo "e"
    comments := UnorderedSet.new Comment "f"
    following := UnorderedSet.new AccountId "g"
    follow_by := UnorderedSet.new AccountId "h"
    last_update_at := none }

/-- Modelled from the spec: the `#[init]` wrapper around `Profile::new` is
generated by the host binding macro and is not in the source; the spec says
construction "fails if invoked on a storage location that already holds a
profile".  The slot is the optional stored state; on failure it is
returned unchanged. -/
def initProfile (slot : Option Profile) (owner : AccountId) :
    Except String Unit × Option Profile :=
  match slot with
  | some _ => (Except.error "AlreadyInitialized", slot)
  | none => (Except.ok (), some (Profile.new owner))

/-- `get_owner_id`, src/src/lib.rs lines 79-81. -/
def Profile.get_owner_id (self : Profile) : AccountId :=
  self.owner_id

/-- `add_avatar`, src/src/lib.rs lines 83-89: owner-gated overwrite of the
avatar field.  The `require!` check precedes the write; on failure the
state is returned unchanged. -/
def Profile.add_avatar (self : Profile) (caller : AccountId) (url : String) :
    Except String Unit × Profile :=
  if self.owner_id = caller then
    (Except.ok (), { self with avatar := some url })
  else
    (Except.error "Owner\x27s method", self)

/-- `get_avatar`, src/src/lib.rs lines 91-93. -/
def Profile.get_avatar (self : Profile) : Option String :=
  self.avatar

/-- `add_nft`, src/src/lib.rs lines 95-101: owner-gated insert into nfts. -/
def Profile.add_nft (self : Profile) (caller : AccountId) (nft : NFTInfo) :
    Except String Unit × Profile :=
  if self.owner_id = caller then
    (Except.ok (), { self with nfts := self.nfts.insert nft })
  else
    (Except.error "Owner\x27s method", self)

/-- `get_nfts`, src/src/lib.rs lines 103-105. -/
def Profile.get_nfts (self : Profile) : List NFTInfo :=
  self.nfts.to_vec

/-- `add_tag`, src/src/lib.rs lines 107-109: open-access insert, no caller
check and no failure path. -/
def Profile.add_tag (self : Profile) (tag : String) : Profile :=
  { self with tags := self.tags.insert tag }

/-- `get_tags`, src/src/lib.rs lines 111-113. -/
def Profile.get_tags (self : Profile) : List String :=
  self.tags.to_vec

/-- `add_education`, src/src/lib.rs lines 115-121: owner-gated insert. -/
def Profile.add_education (self : Profile) (caller : AccountId) (edu : Education) :
    Except String Unit × Profile :=
  if self.owner_id = caller then
    (Except.ok (), { self with educations := self.educations.insert edu })
  else
    (Except.error "Owner\x27s method", self)

/-- `get_educations`, src/src/lib.rs lines 123-125. -/
def Profile.get_educations (self : Profile) : List Education :=
  self.educations.to_vec

/-- Modelled from the spec: `add_job` is absent from the source; the spec
says the owner-gated `add_X` pattern generalizes to `jobs`. -/
def Profile.add_job (self : Profile) (caller : AccountId) (j : Job) :
    Except String Unit × Profile :=
  if self.owner_id = caller then
    (Except.ok (), { self with jobs := self.jobs.insert j })
  else
    (Except.error "Owner\x27s method", self)

/-- Modelled from the spec: `list_jobs` is absent from the source; open
list of the jobs collection. -/
def Profile.get_jobs (self : Profile) : List Job :=
  self.jobs.to_vec

/-- Modelled from the spec: `add_poap` is absent from the source; the spec
says the owner-gated `add_X` pattern generalizes to `poaps`. -/
def Profile.add_poap (self : Profile) (caller : AccountId) (v : NFTInfo) :
    Except String Unit × Profile :=
  if self.owner_id = caller then
    (Except.ok (), { self with poaps := self.poaps.insert v })
  else
    (Except.error "Owner\x27s method", self)

/-- Modelled from the spec: `list_poaps` is absent from the source; open
list of the poaps collection. -/
def Profile.get_poaps (self : Profile) : List NFTInfo :=
  self.poaps.to_vec

/-- Modelled from the spec: `add_comment` is absent from the source; the
spec says `comments` is open-add like `tags` (any identity may attach a
comment), so there is no caller check and no failure path. -/
def Profile.add_comment (self : Profile) (c : Comment) : Profile :=
  { self with comments := self.comments.insert c }

/-- Modelled from the spec: `list_comments` is absent from the source;
open list of the comments collection. -/
def Profile.get_comments (self : Profile) : List Comment :=
  self.comments.to_vec

/-- Modelled from the spec: `add_following` is absent from the source; the
spec says `following` uses the owner-gated-add pattern. -/
def Profile.add_following (self : Profile) (caller : AccountId) (a : AccountId) :
    Except String Unit × Profile :=
  if self.owner_id = caller then
    (Except.ok (), { self with following := self.following.insert a })
  else
    (Except.error "Owner\x27s method", self)

/-- Modelled from the spec: `list_following` is absent from the source;
open list of the following collection. -/
def Profile.get_following (self : Profile) : List AccountId :=
  self.following.to_vec

/-- Modelled from the spec: `list_follow_by` is absent from the source;
open list of the follow_by collection. -/
def Profile.get_follow_by (self : Profile) : List AccountId :=
  self.follow_by.to_vec

/-- One call of the exposed interface: the operations of src/src/lib.rs
plus the four spec-modelled adds.  Read operations carry no payload and
touch no state. -/
inductive Op : Type
  | addAvatar (url : String)
  | addNft (v : NFTInfo)
  | addTag (t : String)
  | addEducation (e : Education)
  | addJob (j : Job)
  | addPoap (v : NFTInfo)
  | addComment (c : Comment)
  | addFollowing (a : AccountId)
  | getOwnerId
  | getAvatar
  | getNfts
  | getTags
  | getEducations
  | getJobs
  | getPoaps
  | getComments
  | getFollowing
  | getFollowBy
  deriving DecidableEq, Repr

/-- Dispatch one call with an explicit caller identity.  Reads are
side-effect-free projections, so they return the state unchanged. -/
def Profile.applyOp (self : Profile) (caller : AccountId) : Op → Except String Unit × Profile
  | Op.addAvatar url => self.add_avatar caller url
  | Op.addNft v => self.add_nft caller v
  | Op.addTag t => (Except.ok (), self.add_tag t)
  | Op.addEducation e => self.add_education caller e
  | Op.addJob j => self.add_job caller j
  | Op.addPoap v => self.add_poap caller v
  | Op.addComment c => (Except.ok (), self.add_comment c)
  | Op.addFollowing a => self.add_following caller a
  | _ => (Except.ok (), self)

/-- Run a sequence of calls, each with its own caller, keeping the
resulting state of every call (failed calls leave the state unchanged). -/
def Profile.applyOps (self : Profile) : List (AccountId × Op) → Profile
  | [] => self
  | (c, op) :: rest => ((self.applyOp c op).2).applyOps rest

/-- Inserting a value makes it a member of the set. -/
theorem UnorderedSet.mem_insert_self {α : Type} [DecidableEq α]
    (s : UnorderedSet α) (a : α) : a ∈ (s.insert a).elements := by
  by_cases h : a ∈ s.elements <;> simp [UnorderedSet.insert, h]

/-- Insertion never drops an element. -/
theorem UnorderedSet.subset_insert {α : Type} [DecidableEq α]
    (s : UnorderedSet α) (a : α) : s.elements ⊆ (s.insert a).elements := by
  by_cases h : a ∈ s.elements <;> simp [UnorderedSet.insert, h]

/-- Two inserts of the same value into a set holding at most one copy of it
leave exactly one copy. -/
theorem UnorderedSet.count_insert_insert {α : Type} [DecidableEq α]
    (s : UnorderedSet α) (a : α) (h : s.elements.count a ≤ 1) :
    ((s.insert a).insert a).elements.count a = 1 := by
  by_cases h1 : a ∈ s.elements
  · have hpos : 0 < s.elements.count a := List.count_pos_iff.mpr h1
    simp [UnorderedSet.insert, h1]
    omega
  · have h0 : s.elements.count a = 0 := List.count_eq_zero.mpr h1
    simp [UnorderedSet.insert, h1, h0]

/-- C1: for every caller identity distinct from the owner, each owner-gated
mutator (add_avatar, add_nft, add_education) fails with the Unauthorized
condition (the `require!` message) and returns the entire profile state
unchanged: the authorization check precedes any write. -/
theorem unauthorized_mutators_fail_unchanged
    (p : Profile) (i : AccountId) (url : String) (v : NFTInfo) (e : Education)
    (h : i ≠ p.owner_id) :
    p.add_avatar i url = (Except.error "Owner\x27s method", p) ∧
    p.add_nft i v = (Except.error "Owner\x27s method", p) ∧
    p.add_education i e = (Except.error "Owner\x27s method", p) := by
  have ho : ¬ (p.owner_id = i) := fun hh => h hh.symm
  simp [Profile.add_avatar, Profile.add_nft, Profile.add_education, ho]

/-- Witness for C1 at a concrete non-owner caller. -/
theorem unauthorized_mutators_fail_unchanged_witness :
    "bob" ≠ (Profile.new "alice").owner_id ∧
    ((Profile.new "alice").add_avatar "bob" "u"
        = (Except.error "Owner\x27s method", Profile.new "alice") ∧
      (Profile.new "alice").add_nft "bob" { contract_id := "c", token_id := "0" }
        = (Except.error "Owner\x27s method", Profile.new "alice") ∧
      (Profile.new "alice").add_education "bob"
          { school := "s", college := none, major := none,
            started_at := none, ended_at := none }
        = (Except.error "Owner\x27s method", Profile.new "alice")) :=
  ⟨by decide,
    unauthorized_mutators_fail_unchanged (Profile.new "alice") "bob" "u"
      { contract_id := "c", token_id := "0" }
      { school := "s", college := none, major := none,
        started_at := none, ended_at := none }
      (by decide)⟩

/-- C2: a freshly constructed profile reads back its owner, empty
collections and an absent avatar. -/
theorem new_profile_initial_reads (owner : AccountId) :
    (Profile.new owner).get_owner_id = owner ∧
    (Profile.new owner).get_nfts = [] ∧
    (Profile.new owner).get_tags = [] ∧
    (Profile.new owner).get_educations = [] ∧
    (Profile.new owner).get_avatar = none := by
  simp [Profile.new, Profile.get_owner_id, Profile.get_nfts, Profile.get_tags,
    Profile.get_educations, Profile.get_avatar, UnorderedSet.new, UnorderedSet.to_vec]

/-- C4: inserting an NFT reference into profile A does not make it appear
in profile B, even when B is constructed after A with the same value: each
instance owns its collections exclusively (value semantics; each deployed
instance has its own storage). -/
theorem cross_instance_isolation (a b : AccountId) (v : NFTInfo) :
    v ∈ (((Profile.new a).add_nft a v).2).get_nfts ∧
    v ∉ ((Profile.new b)).get_nfts := by
  simp [Profile.new, Profile.add_nft, Profile.get_nfts,
    UnorderedSet.new, UnorderedSet.insert, UnorderedSet.to_vec]

/-- C5: invoking the initializer on a storage slot that already holds a
profile fails with AlreadyInitialized and leaves the stored profile
untouched. -/
theorem init_refuses_occupied_slot (p : Profile) (owner : AccountId) :
    initProfile (some p) owner = (Except.error "AlreadyInitialized", some p) := rfl

/-- C6: add_tag and add_comment are open-access: they succeed for every
caller identity, owner or not, and insert the given value. -/
theorem open_access_tag_and_comment
    (p : Profile) (caller : AccountId) (t : String) (c : Comment) :
    (p.applyOp caller (Op.addTag t)).1 = Except.ok () ∧
    t ∈ ((p.applyOp caller (Op.addTag t)).2).get_tags ∧
    (p.applyOp caller (Op.addComment c)).1 = Except.ok () ∧
    c ∈ ((p.applyOp caller (Op.addComment c)).2).get_comments := by
  refine ⟨rfl, ?_, rfl, ?_⟩ <;>
    simp [Profile.applyOp, Profile.add_tag, Profile.add_comment,
      Profile.get_tags, Profile.get_comments, UnorderedSet.to_vec,
      UnorderedSet.mem_insert_self]

/-- C3: insertion into every collection is idempotent under full value
equality: two adds of value-equal inputs (by the owner, for the gated
mutators) leave exactly one occurrence in the corresponding list read and
the duplicate insert reports no error.  The count hypotheses say the
starting state respects the set semantics (at most one stored copy). -/
theorem idempotent_insert_all_collections
    (p : Profile) (t : String) (v : NFTInfo) (e : Education) (j : Job)
    (w : NFTInfo) (c : Comment) (f : AccountId)
    (ht : p.tags.elements.count t ≤ 1)
    (hn : p.nfts.elements.count v ≤ 1)
    (he : p.educations.elements.count e ≤ 1)
    (hj : p.jobs.elements.count j ≤ 1)
    (hw : p.poaps.elements.count w ≤ 1)
    (hc : p.comments.elements.count c ≤ 1)
    (hf : p.following.elements.count f ≤ 1) :
    ((p.add_tag t).add_tag t).get_tags.count t = 1 ∧
    ((p.add_comment c).add_comment c).get_comments.count c = 1 ∧
    (p.add_nft p.owner_id v).1 = Except.ok () ∧
    (((p.add_nft p.owner_id v).2).add_nft p.owner_id v).1 = Except.ok () ∧
    ((((p.add_nft p.owner_id v).2).add_nft p.owner_id v).2).get_nfts.count v = 1 ∧
    (p.add_education p.owner_id e).1 = Except.ok () ∧
    (((p.add_education p.owner_id e).2).add_education p.owner_id e).1 = Except.ok () ∧
    ((((p.add_education p.owner_id e).2).add_education p.owner_id e).2).get_educations.count e = 1 ∧
    (p.add_job p.owner_id j).1 = Except.ok () ∧
    (((p.add_job p.owner_id j).2).add_job p.owner_id j).1 = Except.ok () ∧
    ((((p.add_job p.owner_id j).2).add_job p.owner_id j).2).get_jobs.count j = 1 ∧
    (p.add_poap p.owner_id w).1 = Except.ok () ∧
    (((p.add_poap p.owner_id w).2).add_poap p.owner_id w).1 = Except.ok () ∧
    ((((p.add_poap p.owner_id w).2).add_poap p.owner_id w).2).get_poaps.count w = 1 ∧
    (p.add_following p.owner_id f).1 = Except.ok () ∧
    (((p.add_following p.owner_id f).2).add_following p.owner_id f).1 = Except.ok () ∧
    ((((p.add_following p.owner_id f).2).add_following p.owner_id f).2).get_following.count f = 1 := by
  simp [Profile.add_tag, Profile.add_comment, Profile.add_nft, Profile.add_education,
    Profile.add_job, Profile.add_poap, Profile.add_following,
    Profile.get_tags, Profile.get_comments, Profile.get_nfts, Profile.get_educations,
    Profile.get_jobs, Profile.get_poaps, Profile.get_following, UnorderedSet.to_vec,
    UnorderedSet.count_insert_insert, ht, hn, he, hj, hw, hc, hf]

/-- Witness for C3 on a fresh profile with concrete values. -/
theorem idempotent_insert_all_collections_witness :
    (Profile.new "alice").tags.elements.count "x" ≤ 1 ∧
    (Profile.new "alice").nfts.elements.count { contract_id := "c", token_id := "0" } ≤ 1 ∧
    ((((Profile.new "alice").add_tag "x").add_tag "x").get_tags.count "x" = 1 ∧
      (((Profile.new "alice").add_nft (Profile.new "alice").owner_id
            { contract_id := "c", token_id := "0" }).2.add_nft
          (Profile.new "alice").owner_id
          { contract_id := "c", token_id := "0" }).2.get_nfts.count
        { contract_id := "c", token_id := "0" } = 1) :=
  ⟨by decide, by decide, by
    have h := idempotent_insert_all_collections (Profile.new "alice") "x"
      { contract_id := "c", token_id := "0" }
      { school := "s", college := none, major := none,
        started_at := none, ended_at := none }
      { company := "co", position := none, desc := none,
        started_at := none, ended_at := none }
      { contract_id := "pc", token_id := "1" }
      { commentator := "bob", detail := "d", update_at := none }
      "fr" (by decide) (by decide) (by decide) (by decide) (by decide)
      (by decide) (by decide)
    exact ⟨h.1, h.2.2.2.2.1⟩⟩

/-- C7: no exposed operation removes a collection element, clears a
collection, or edits an element in place: for every call, every
collection after the call is a superset of the collection before it. -/
theorem no_operation_removes_elements (p : Profile) (caller : AccountId) (op : Op) :
    p.nfts.elements ⊆ ((p.applyOp caller op).2).nfts.elements ∧
    p.tags.elements ⊆ ((p.applyOp caller op).2).tags.elements ∧
    p.educations.elements ⊆ ((p.applyOp caller op).2).educations.elements ∧
    p.jobs.elements ⊆ ((p.applyOp caller op).2).jobs.elements ∧
    p.poaps.elements ⊆ ((p.applyOp caller op).2).poaps.elements ∧
    p.comments.elements ⊆ ((p.applyOp caller op).2).comments.elements ∧
    p.following.elements ⊆ ((p.applyOp caller op).2).following.elements ∧
    p.follow_by.elements ⊆ ((p.applyOp caller op).2).follow_by.elements := by
  cases op <;>
    simp only [Profile.applyOp, Profile.add_avatar, Profile.add_nft, Profile.add_tag,
      Profile.add_education, Profile.add_job, Profile.add_poap, Profile.add_comment,
      Profile.add_following] <;>
    (try split) <;>
    refine ⟨?_, ?_, ?_, ?_, ?_, ?_, ?_, ?_⟩ <;>
    first
      | exact List.Subset.refl _
      | exact UnorderedSet.subset_insert _ _

/-- A single call never changes the stored owner identity. -/
theorem applyOp_preserves_owner (p : Profile) (c : AccountId) (op : Op) :
    ((p.applyOp c op).2).owner_id = p.owner_id := by
  cases op <;>
    simp only [Profile.applyOp, Profile.add_avatar, Profile.add_nft, Profile.add_tag,
      Profile.add_education, Profile.add_job, Profile.add_poap, Profile.add_comment,
      Profile.add_following] <;>
    (try split) <;> rfl

/-- A sequence of calls never changes the stored owner identity. -/
theorem applyOps_preserves_owner (p : Profile) (l : List (AccountId × Op)) :
    (p.applyOps l).owner_id = p.owner_id := by
  induction l generalizing p with
  | nil => rfl
  | cons hd tl ih =>
    obtain ⟨c, op⟩ := hd
    rw [Profile.applyOps, ih, applyOp_preserves_owner]

/-- C8: the owner identity is immutable after construction: after any
sequence of calls, each with any caller, get_owner_id still returns the
constructing owner. -/
theorem owner_immutable_under_any_ops (owner : AccountId) (ops : List (AccountId × Op)) :
    ((Profile.new owner).applyOps ops).get_owner_id = owner := by
  rw [Profile.get_owner_id, applyOps_preserves_owner]
  rfl

/-- A single call never assigns last_update_at. -/
theorem applyOp_preserves_last_update (p : Profile) (c : AccountId) (op : Op) :
    ((p.applyOp c op).2).last_update_at = p.last_update_at := by
  cases op <;>
    simp only [Profile.applyOp, Profile.add_avatar, Profile.add_nft, Profile.add_tag,
      Profile.add_education, Profile.add_job, Profile.add_poap, Profile.add_comment,
      Profile.add_following] <;>
    (try split) <;> rfl

/-- A sequence of calls never assigns last_update_at. -/
theorem applyOps_preserves_last_update (p : Profile) (l : List (AccountId × Op)) :
    (p.applyOps l).last_update_at = p.last_update_at := by
  induction l generalizing p with
  | nil => rfl
  | cons hd tl ih =>
    obtain ⟨c, op⟩ := hd
    rw [Profile.applyOps, ih, applyOp_preserves_last_update]

/-- C10: last_update_at starts absent and no exposed operation assigns it,
so it stays None after any sequence of calls. -/
theorem last_update_at_permanently_none (owner : AccountId) (ops : List (AccountId × Op)) :
    ((Profile.new owner).applyOps ops).last_update_at = none := by
  rw [applyOps_preserves_last_update]
  rfl

/-- C9: setting the avatar twice as the owner overwrites: the read returns
only the second URL. -/
theorem avatar_overwrite (p : Profile) (u1 u2 : String) :
    (((p.add_avatar p.owner_id u1).2).add_avatar
        ((p.add_avatar p.owner_id u1).2).owner_id u2).2.get_avatar = some u2 := by
  simp [Profile.add_avatar, Profile.get_avatar]

end Leaflink
